import Mathlib

/-!
Verification of the signup-form validation engine.

The first part embeds `ErrorMessageDirective` from
`src/client/src/app/directives/error-message.directive.ts`.
The directive resolves an Angular form control (possibly failing, hence
an `Option`) and derives the `aria-invalid` and `aria-errormessage`
host attributes from the control state; an attribute value of `none`
models the attribute being absent (the TypeScript getters return `null`).
-/

namespace SignupForm

/-- The part of an Angular `AbstractControl` the directive reads:
`control.invalid`, `control.touched` and `control.dirty`. -/
structure ControlState where
  invalid : Bool
  touched : Bool
  dirty : Bool
deriving DecidableEq, Repr

/-- State of an `ErrorMessageDirective` instance after `ngOnInit`:
`appErrorMessage` is the optional input holding the id of the element
with the error messages, and `control` is the result of
`findFormControl`, which may have found no control (`none`). -/
structure ErrorMessageDirective where
  appErrorMessage : Option String
  control : Option ControlState
deriving DecidableEq, Repr

/-- `ErrorMessageDirective.isActive`: the link to the errors is
established when the control was resolved, is invalid, and is touched
or dirty. -/
def ErrorMessageDirective.isActive (d : ErrorMessageDirective) : Bool :=
  match d.control with
  | none => false
  | some c => c.invalid && (c.touched || c.dirty)

/-- The `aria-invalid` host binding: `some true` when active, absent
(`none`, the TypeScript `null`) otherwise. -/
def ErrorMessageDirective.ariaInvalid (d : ErrorMessageDirective) : Option Bool :=
  if d.isActive then some true else none

/-- The `aria-errormessage` host binding:
`this.isActive() && this.appErrorMessage ? this.appErrorMessage : null`.
The empty string is falsy in TypeScript, so an empty `appErrorMessage`
also yields an absent attribute. -/
def ErrorMessageDirective.ariaErrormessage (d : ErrorMessageDirective) : Option String :=
  match d.appErrorMessage with
  | none => none
  | some s => if d.isActive && !(s == "") then some s else none

end SignupForm

open SignupForm

/-- C1: for a field whose control was resolved and whose error-region
identifier was provided (and is nonempty, as all region ids are), the
error association is active exactly when the control is invalid and
(touched or dirty): in that case `aria-invalid` is `true` and
`aria-errormessage` is the region identifier; in every other case both
attributes are absent (`none`), not merely empty. -/
theorem aria_association_active_iff_invalid_and_touched_or_dirty
    (d : ErrorMessageDirective) (c : ControlState) (rid : String)
    (hc : d.control = some c) (hr : d.appErrorMessage = some rid)
    (hne : rid ≠ "") :
    (c.invalid = true ∧ (c.touched = true ∨ c.dirty = true) →
      d.ariaInvalid = some true ∧ d.ariaErrormessage = some rid) ∧
    (¬ (c.invalid = true ∧ (c.touched = true ∨ c.dirty = true)) →
      d.ariaInvalid = none ∧ d.ariaErrormessage = none) := by
  have hact : d.isActive = (c.invalid && (c.touched || c.dirty)) := by
    simp [ErrorMessageDirective.isActive, hc]
  constructor
  · rintro ⟨hi, ht⟩
    have hb : d.isActive = true := by
      rw [hact, hi]
      rcases ht with h | h <;> simp [h]
    refine ⟨?_, ?_⟩
    · simp [ErrorMessageDirective.ariaInvalid, hb]
    · simp [ErrorMessageDirective.ariaErrormessage, hr, hb, hne]
  · intro hno
    have hb : d.isActive = false := by
      rw [hact]
      rcases hinv : c.invalid with _ | _
      · simp
      · rcases htch : c.touched with _ | _
        · rcases hd : c.dirty with _ | _
          · simp
          · exact absurd ⟨hinv, Or.inr hd⟩ hno
        · exact absurd ⟨hinv, Or.inl htch⟩ hno
    refine ⟨?_, ?_⟩
    · simp [ErrorMessageDirective.ariaInvalid, hb]
    · simp [ErrorMessageDirective.ariaErrormessage, hr, hb]

/-- Witness for C1: a concrete directive on an invalid touched control
with region id "username-errors" exposes both attributes. -/
theorem aria_association_witness :
    ErrorMessageDirective.ariaInvalid
        { appErrorMessage := some "username-errors",
          control := some { invalid := true, touched := true, dirty := false } } =
      some true ∧
    ErrorMessageDirective.ariaErrormessage
        { appErrorMessage := some "username-errors",
          control := some { invalid := true, touched := true, dirty := false } } =
      some "username-errors" :=
  (aria_association_active_iff_invalid_and_touched_or_dirty
      { appErrorMessage := some "username-errors",
        control := some { invalid := true, touched := true, dirty := false } }
      { invalid := true, touched := true, dirty := false }
      "username-errors" rfl rfl (by decide)).1 (by exact ⟨rfl, Or.inl rfl⟩)

/-- C10: invariant of the directive. Whenever `aria-errormessage` is
non-null, `aria-invalid` is `true`; and if the control was never
resolved or no `appErrorMessage` region id was provided, the
`aria-errormessage` attribute is always absent. -/
theorem ariaErrormessage_implies_ariaInvalid (d : ErrorMessageDirective) :
    (d.ariaErrormessage ≠ none → d.ariaInvalid = some true) ∧
    (d.control = none ∨ d.appErrorMessage = none → d.ariaErrormessage = none) := by
  constructor
  · intro hne
    rcases hr : d.appErrorMessage with _ | s
    · exact absurd (by simp [ErrorMessageDirective.ariaErrormessage, hr]) hne
    · rcases hb : d.isActive with _ | _
      · exact absurd (by simp [ErrorMessageDirective.ariaErrormessage, hr, hb]) hne
      · simp [ErrorMessageDirective.ariaInvalid, hb]
  · intro h
    rcases h with h | h
    · rcases hr : d.appErrorMessage with _ | s
      · simp [ErrorMessageDirective.ariaErrormessage, hr]
      · have hb : d.isActive = false := by
          simp [ErrorMessageDirective.isActive, h]
        simp [ErrorMessageDirective.ariaErrormessage, hr, hb]
    · simp [ErrorMessageDirective.ariaErrormessage, h]

/-- Witness for C10: a directive with an unresolved control never
exposes an error-message pointer. -/
theorem ariaErrormessage_implies_ariaInvalid_witness :
    ErrorMessageDirective.ariaErrormessage
        { appErrorMessage := some "email-errors", control := none } = none :=
  (ariaErrormessage_implies_ariaInvalid
      { appErrorMessage := some "email-errors", control := none }).2 (Or.inl rfl)

namespace SignupForm

/-!
The signup form component itself is not part of the sources; only its
test suite is. The following definitions are therefore modelled from
the specification of the validation and submission state machine.
-/

/-- Modelled from the spec: the `PlanSelection` enumerated variant
(personal, business, non-profit) of the missing signup form component. -/
inductive Plan
  | personal
  | business
  | nonProfit
deriving DecidableEq, Repr

/-- `PasswordStrength` result shape used by the test suite:
score 0 to 4, warning text and suggestion list. -/
structure PasswordStrength where
  score : Nat
  warning : String
  suggestions : List String
deriving DecidableEq, Repr

/-- Modelled from the spec: the error-kind tags of the missing
validation rules (`required`, `mustAccept`, `taken`, `weakPassword`). -/
inductive ErrorKind
  | required
  | mustAccept
  | taken
  | weakPassword
deriving DecidableEq, Repr

/-- Modelled from the spec: a field validity state is valid, invalid
with an error kind, or pending while an async check is outstanding. -/
inductive FieldValidity
  | valid
  | invalid (kind : ErrorKind)
  | pending
deriving DecidableEq, Repr

/-- Modelled from the spec: the values of all form fields of the
missing signup form component (the fields its test suite fills). -/
structure FormValues where
  username : String
  email : String
  password : String
  name : String
  addressLine1 : String
  addressLine2 : String
  city : String
  postcode : String
  region : String
  country : String
  tos : Bool
  plan : Plan
deriving DecidableEq, Repr

/-- Modelled from the spec: the projected signup payload, the
structurally-required subset of field values (username, email, name,
address fields, plan) and not the raw form snapshot: it excludes the
UI-only fields (the password being async-checked separately and the
terms checkbox). -/
structure SignupPayload where
  username : String
  email : String
  name : String
  addressLine1 : String
  addressLine2 : String
  city : String
  postcode : String
  region : String
  country : String
  plan : Plan
deriving DecidableEq, Repr

/-- Modelled from the spec: the projection from the form values to the
signup payload. -/
def projectPayload (v : FormValues) : SignupPayload :=
  { username := v.username, email := v.email, name := v.name,
    addressLine1 := v.addressLine1, addressLine2 := v.addressLine2,
    city := v.city, postcode := v.postcode, region := v.region,
    country := v.country, plan := v.plan }

/-- The `RemoteCheckClient` collaborator (the missing `SignupService`):
each deferred remote result is modelled as a pure function of the
input, and the final signup call by whether it succeeds. -/
structure SignupService where
  isUsernameTaken : String → Bool
  isEmailTaken : String → Bool
  getPasswordStrength : String → PasswordStrength
  signupSucceeds : SignupPayload → Bool

/-- Modelled from the spec: `required(value)` is violated iff the value
is empty or whitespace-only, i.e. every character is whitespace
(vacuously so for the empty value). -/
def requiredOk (value : String) : Bool :=
  !(value.data.all Char.isWhitespace)

/-- Modelled from the spec: `conditionalRequired(value, plan)` for
`addressLine1` is satisfied vacuously when the plan is personal, and
otherwise requires a nonempty value. -/
def conditionalRequiredOk (value : String) (plan : Plan) : Bool :=
  plan == Plan.personal || requiredOk value

/-- Modelled from the spec: `mustAccept(value)` for the `tos` checkbox
is violated iff the value is false. -/
def mustAcceptOk (value : Bool) : Bool :=
  value

/-- Validity of a plain required field. -/
def requiredValidity (value : String) : FieldValidity :=
  if requiredOk value then .valid else .invalid .required

/-- Validity of the `tos` checkbox. -/
def mustAcceptValidity (value : Bool) : FieldValidity :=
  if mustAcceptOk value then .valid else .invalid .mustAccept

/-- Modelled from the spec: validity of `addressLine1`, re-evaluated
synchronously from the value and the plan alone (no debounce is
involved in this conditional structural rule). -/
def addressLine1Validity (value : String) (plan : Plan) : FieldValidity :=
  if conditionalRequiredOk value plan then .valid else .invalid .required

/-- Modelled from the spec: the `aria-required` attribute rendered for
`addressLine1` is present exactly when the plan makes it required. -/
def addressLine1AriaRequired (plan : Plan) : Option String :=
  if plan == Plan.personal then none else some "true"

/-- Modelled from the spec: validity of the `username` field. A
structurally empty field is invalid with `required` and its remote
check is never issued; otherwise the field is `pending` until the
debounce window has elapsed and the remote call has resolved, and then
`taken` or valid according to the remote result. -/
def usernameValidity (svc : SignupService) (value : String)
    (debounced : Bool) : FieldValidity :=
  if !requiredOk value then .invalid .required
  else if !debounced then .pending
  else if svc.isUsernameTaken value then .invalid .taken
  else .valid

/-- Modelled from the spec: validity of the `email` field, analogous to
the username field with the `taken` kind from the email check. -/
def emailValidity (svc : SignupService) (value : String)
    (debounced : Bool) : FieldValidity :=
  if !requiredOk value then .invalid .required
  else if !debounced then .pending
  else if svc.isEmailTaken value then .invalid .taken
  else .valid

/-- Modelled from the spec: validity of the `password` field. Empty is
structurally invalid (the strength check is never issued for an
untouched empty password, as the test suite requires); otherwise
pending until resolution and then `weakPassword` iff the reported
score is below 3. -/
def passwordValidity (svc : SignupService) (value : String)
    (debounced : Bool) : FieldValidity :=
  if !requiredOk value then .invalid .required
  else if !debounced then .pending
  else if (svc.getPasswordStrength value).score < 3 then .invalid .weakPassword
  else .valid

/-- Modelled from the spec: the submission phase of the form. -/
inductive Phase
  | idle
  | submitting
  | succeeded
  | failed
deriving DecidableEq, Repr

/-- Modelled from the spec: the form snapshot driving the missing
component: current field values, whether the async debounce window has
elapsed with the in-flight checks resolved, the submission phase and
the rendered status text. -/
structure FormState where
  values : FormValues
  debounceElapsed : Bool
  phase : Phase
  status : Option String
deriving DecidableEq, Repr

/-- A remote operation observed on the `SignupService` collaborator,
with the argument it was invoked with. -/
inductive RemoteCall
  | usernameTaken (username : String)
  | emailTaken (email : String)
  | passwordStrength (password : String)
  | signup (payload : SignupPayload)
deriving DecidableEq, Repr

/-- Modelled from the spec: every field's validity in a form state,
bundled as the list the validity model aggregates over. -/
def fieldValidities (svc : SignupService) (st : FormState) : List FieldValidity :=
  [ usernameValidity svc st.values.username st.debounceElapsed,
    emailValidity svc st.values.email st.debounceElapsed,
    passwordValidity svc st.values.password st.debounceElapsed,
    requiredValidity st.values.name,
    addressLine1Validity st.values.addressLine1 st.values.plan,
    requiredValidity st.values.addressLine2,
    requiredValidity st.values.city,
    requiredValidity st.values.postcode,
    requiredValidity st.values.country,
    mustAcceptValidity st.values.tos ]

/-- Whether a field validity counts as submittable: only `valid` does;
`pending` and `invalid` both gate submission. -/
def isValidB : FieldValidity → Bool
  | .valid => true
  | _ => false

/-- Modelled from the spec: `canSubmit` is the logical AND of every
field's validity, with `pending` counting as not-valid for gating. -/
def canSubmit (svc : SignupService) (st : FormState) : Bool :=
  (fieldValidities svc st).all isValidB

/-- Modelled from the spec: filling the form yields a fresh snapshot
whose async debounce window has not yet elapsed. -/
def fillForm (v : FormValues) : FormState :=
  { values := v, debounceElapsed := false, phase := .idle, status := none }

/-- Modelled from the spec: letting the 1000 ms debounce window elapse
issues the remote validation calls for the async-validated fields whose
structural gate passes (no call is ever issued for an empty field) and
marks the in-flight checks resolved. -/
def elapseDebounce (st : FormState) : FormState × List RemoteCall :=
  ({ st with debounceElapsed := true },
    (if requiredOk st.values.username
      then [RemoteCall.usernameTaken st.values.username] else []) ++
    (if requiredOk st.values.email
      then [RemoteCall.emailTaken st.values.email] else []) ++
    (if requiredOk st.values.password
      then [RemoteCall.passwordStrength st.values.password] else []))

/-- Modelled from the spec: triggering submit. While `canSubmit` is
false this is a no-op (no remote call, no state change); otherwise the
signup call is issued with the projected payload and the phase and
status text record its success or failure. -/
def submitForm (svc : SignupService) (st : FormState) : FormState × List RemoteCall :=
  if canSubmit svc st then
    let payload := projectPayload st.values
    if svc.signupSucceeds payload then
      ({ st with phase := .succeeded, status := some "Sign-up successful!" },
        [RemoteCall.signup payload])
    else
      ({ st with phase := .failed, status := some "Sign-up error" },
        [RemoteCall.signup payload])
  else (st, [])

/-- Modelled from the spec: the end-to-end scenario of the test suite:
fill the form, wait past the debounce window, then trigger submit;
returns the final state and the full trace of remote calls. -/
def runScenario (svc : SignupService) (v : FormValues) : FormState × List RemoteCall :=
  let st0 := fillForm v
  let step1 := elapseDebounce st0
  let step2 := submitForm svc step1.1
  (step2.1, step1.2 ++ step2.2)

end SignupForm

namespace SignupForm

/-- Modelled from the spec: switching the selected plan mutates only
the plan value of the snapshot; no debounce window is started. -/
def setPlan (st : FormState) (p : Plan) : FormState :=
  { st with values := { st.values with plan := p } }

/-- The required fields of the form, as enumerated by the test suite
(`addressLine1` is only conditionally required and `region` is
optional, so neither is listed). -/
def requiredFields : List String :=
  ["username", "email", "name", "addressLine2", "city", "postcode", "country", "tos"]

/-- Modelled from the spec: each field owns exactly one error region,
pre-selected by naming convention (field id followed by "-errors"). -/
def errorRegionId (f : String) : String :=
  f ++ "-errors"

/-- The error kind a required field carries when left empty: the `tos`
checkbox carries `mustAccept`, every other required field `required`. -/
def requiredFieldKind (f : String) : ErrorKind :=
  if f == "tos" then .mustAccept else .required

/-- Modelled from the spec: each error kind maps to exactly one
human-readable message template. The test suite pins the `mustAccept`
text and the "must be given" fragment of the `required` text; the
remote-rejection templates are representative. -/
def errorTemplate : ErrorKind → String
  | .required => "must be given"
  | .mustAccept => "Please accept the Terms and Services"
  | .taken => "is already taken"
  | .weakPassword => "Password is too weak"

/-- Whether a required field left at its initial empty value is
invalid: computed from the structural rules (`mustAccept` on the
unchecked `tos` box, `required` on the empty text fields). -/
def emptyRequiredFieldInvalid (f : String) : Bool :=
  if f == "tos" then !(mustAcceptOk false) else !(requiredOk "")

/-- The rendering-boundary attributes of one field: `aria-required`,
the two directive-driven attributes, and the text of the field's error
region. -/
structure FieldRendering where
  ariaRequired : Option String
  ariaInvalid : Option Bool
  ariaErrormessage : Option String
  errorRegionText : String
deriving DecidableEq, Repr

/-- Modelled from the spec: the rendering of a required field whose
value is still the initial empty one. The `aria-required` attribute is
statically present on required fields; the error-association
attributes come from the `ErrorMessageDirective` fed with the computed
control state; the error region renders the template of the field's
error kind. -/
def renderRequiredField (f : String) (touched : Bool) : FieldRendering :=
  let d : ErrorMessageDirective :=
    { appErrorMessage := some (errorRegionId f),
      control := some { invalid := emptyRequiredFieldInvalid f,
                        touched := touched, dirty := false } }
  { ariaRequired := some "true",
    ariaInvalid := d.ariaInvalid,
    ariaErrormessage := d.ariaErrormessage,
    errorRegionText := errorTemplate (requiredFieldKind f) }

/-- Modelled from the spec: the `type` attribute of the password input
as a function of the show-password flag (initially false). -/
def passwordTypeAttr (showPassword : Bool) : String :=
  if showPassword then "text" else "password"

/-- Modelled from the spec: the show-password control toggles the
flag. -/
def togglePasswordDisplay (showPassword : Bool) : Bool :=
  !showPassword

/-- A remote collaborator giving successful responses everywhere:
username and email free, strong password, successful signup (the
default stub configuration of the test suite). -/
def happyService : SignupService :=
  { isUsernameTaken := fun _ => false,
    isEmailTaken := fun _ => false,
    getPasswordStrength := fun _ => { score := 4, warning := "", suggestions := [] },
    signupSucceeds := fun _ => true }

/-- Concrete filled form values used by the witnesses. -/
def sampleValues : FormValues :=
  { username := "quickfox", email := "fox@example.org", password := "topsecret",
    name := "Linda Taylor", addressLine1 := "12 High Street",
    addressLine2 := "Flat 3", city := "Anytown", postcode := "12345",
    region := "Midlands", country := "United Kingdom",
    tos := true, plan := Plan.business }

/-- The initial form values: every field empty, terms unchecked, plan
personal. -/
def emptyValues : FormValues :=
  { username := "", email := "", password := "", name := "", addressLine1 := "",
    addressLine2 := "", city := "", postcode := "", region := "", country := "",
    tos := false, plan := Plan.personal }

end SignupForm

/-- C2: while `canSubmit` is false, triggering submit is a no-op: no
remote operation is invoked (the call trace is empty, so in particular
none of usernameTaken, emailTaken, passwordStrength or signup is
issued) and the form state is unchanged. -/
theorem submit_is_noop_when_cannot_submit (svc : SignupService) (st : FormState)
    (h : canSubmit svc st = false) :
    submitForm svc st = (st, []) := by
  simp [submitForm, h]

/-- Witness for C2: submitting the untouched empty form is a no-op. -/
theorem submit_is_noop_when_cannot_submit_witness :
    canSubmit happyService (fillForm emptyValues) = false ∧
    submitForm happyService (fillForm emptyValues) = (fillForm emptyValues, []) :=
  ⟨by decide,
    submit_is_noop_when_cannot_submit happyService (fillForm emptyValues) (by decide)⟩

/-- C3: while at least one async validator is still pending, submission
is rejected: `canSubmit` is false (the submit button is disabled) and
triggering submit issues no remote call, so the signup call in
particular is never issued. -/
theorem pending_async_blocks_submission (svc : SignupService) (st : FormState)
    (h : usernameValidity svc st.values.username st.debounceElapsed = .pending ∨
         emailValidity svc st.values.email st.debounceElapsed = .pending ∨
         passwordValidity svc st.values.password st.debounceElapsed = .pending) :
    canSubmit svc st = false ∧ (submitForm svc st).2 = [] := by
  have hcs : canSubmit svc st = false := by
    rcases h with h | h | h <;> simp [canSubmit, fieldValidities, h, isValidB]
  exact ⟨hcs, by simp [submitForm, hcs]⟩

/-- Witness for C3: right after filling the form, before the debounce
window has elapsed, the username check is pending and submission stays
blocked. -/
theorem pending_async_blocks_submission_witness :
    canSubmit happyService (fillForm sampleValues) = false ∧
    (submitForm happyService (fillForm sampleValues)).2 = [] :=
  pending_async_blocks_submission happyService (fillForm sampleValues)
    (Or.inl (by decide))

/-- Helper: the state after filling the form and letting the debounce
window elapse, written as a literal snapshot. -/
theorem elapseDebounce_fillForm_state (v : FormValues) :
    (elapseDebounce (fillForm v)).1 =
      ({ values := v, debounceElapsed := true, phase := Phase.idle,
         status := none } : FormState) := rfl

/-- Helper: with every structural gate passing, letting the debounce
window elapse issues the three remote validation calls with the
entered values, in field order. -/
theorem elapseDebounce_fillForm_calls (v : FormValues)
    (h1 : requiredOk v.username = true) (h2 : requiredOk v.email = true)
    (h3 : requiredOk v.password = true) :
    (elapseDebounce (fillForm v)).2 =
      [RemoteCall.usernameTaken v.username, RemoteCall.emailTaken v.email,
       RemoteCall.passwordStrength v.password] := by
  simp [elapseDebounce, fillForm, h1, h2, h3]

/-- Helper: when every structural rule passes, the username and email
are free and the password scores at least 3, the post-debounce
snapshot is submittable. -/
theorem canSubmit_of_all_checks_pass (svc : SignupService) (v : FormValues)
    (h1 : requiredOk v.username = true) (h2 : requiredOk v.email = true)
    (h3 : requiredOk v.password = true) (h4 : requiredOk v.name = true)
    (h5 : conditionalRequiredOk v.addressLine1 v.plan = true)
    (h6 : requiredOk v.addressLine2 = true) (h7 : requiredOk v.city = true)
    (h8 : requiredOk v.postcode = true) (h9 : requiredOk v.country = true)
    (h10 : v.tos = true)
    (hu : svc.isUsernameTaken v.username = false)
    (he : svc.isEmailTaken v.email = false)
    (hp : 3 ≤ (svc.getPasswordStrength v.password).score) :
    canSubmit svc
      ({ values := v, debounceElapsed := true, phase := Phase.idle,
         status := none } : FormState) = true := by
  have hplt : ¬ ((svc.getPasswordStrength v.password).score < 3) := by omega
  simp [canSubmit, fieldValidities, usernameValidity, emailValidity,
    passwordValidity, requiredValidity, addressLine1Validity,
    mustAcceptValidity, mustAcceptOk, isValidB,
    h1, h2, h3, h4, h5, h6, h7, h8, h9, h10, hu, he, hplt]

/-- C4: with all fields holding valid values, once the debounce window
has elapsed submit is enabled, and triggering submit produces the call
trace usernameTaken, emailTaken, passwordStrength with the entered
values followed by signup with the projected payload, and the status
text becomes "Sign-up successful!". -/
theorem successful_submission_scenario (svc : SignupService) (v : FormValues)
    (h1 : requiredOk v.username = true) (h2 : requiredOk v.email = true)
    (h3 : requiredOk v.password = true) (h4 : requiredOk v.name = true)
    (h5 : conditionalRequiredOk v.addressLine1 v.plan = true)
    (h6 : requiredOk v.addressLine2 = true) (h7 : requiredOk v.city = true)
    (h8 : requiredOk v.postcode = true) (h9 : requiredOk v.country = true)
    (h10 : v.tos = true)
    (hu : svc.isUsernameTaken v.username = false)
    (he : svc.isEmailTaken v.email = false)
    (hp : 3 ≤ (svc.getPasswordStrength v.password).score)
    (hs : svc.signupSucceeds (projectPayload v) = true) :
    canSubmit svc (elapseDebounce (fillForm v)).1 = true ∧
    (runScenario svc v).2 =
      [RemoteCall.usernameTaken v.username, RemoteCall.emailTaken v.email,
       RemoteCall.passwordStrength v.password,
       RemoteCall.signup (projectPayload v)] ∧
    (runScenario svc v).1.status = some "Sign-up successful!" ∧
    (runScenario svc v).1.phase = Phase.succeeded := by
  have hcs := canSubmit_of_all_checks_pass svc v
    h1 h2 h3 h4 h5 h6 h7 h8 h9 h10 hu he hp
  have hrun : runScenario svc v =
      (({ values := v, debounceElapsed := true, phase := Phase.succeeded,
          status := some "Sign-up successful!" } : FormState),
        [RemoteCall.usernameTaken v.username, RemoteCall.emailTaken v.email,
         RemoteCall.passwordStrength v.password,
         RemoteCall.signup (projectPayload v)]) := by
    rw [runScenario, elapseDebounce_fillForm_state,
      elapseDebounce_fillForm_calls v h1 h2 h3]
    simp [submitForm, hcs, hs]
  rw [elapseDebounce_fillForm_state]
  exact ⟨hcs, by rw [hrun], by rw [hrun], by rw [hrun]⟩

/-- Witness for C4: the sample values against the all-successful
collaborator run the full successful scenario. -/
theorem successful_submission_scenario_witness :
    canSubmit happyService (elapseDebounce (fillForm sampleValues)).1 = true ∧
    (runScenario happyService sampleValues).2 =
      [RemoteCall.usernameTaken sampleValues.username,
       RemoteCall.emailTaken sampleValues.email,
       RemoteCall.passwordStrength sampleValues.password,
       RemoteCall.signup (projectPayload sampleValues)] ∧
    (runScenario happyService sampleValues).1.status = some "Sign-up successful!" ∧
    (runScenario happyService sampleValues).1.phase = Phase.succeeded :=
  successful_submission_scenario happyService sampleValues
    (by decide) (by decide) (by decide) (by decide) (by decide) (by decide)
    (by decide) (by decide) (by decide) (by decide) (by decide) (by decide)
    (by decide) (by decide)

/-- C5: on resolution of the async checks over a structurally valid
form, a taken username or email marks the field invalid with kind
`taken`, a password score below 3 marks the password invalid with kind
`weakPassword`, and in each of these cases the form stays
non-submittable and the signup call is never issued (the trace holds
exactly the three validation calls). -/
theorem async_rejection_blocks_submission (svc : SignupService) (v : FormValues)
    (h1 : requiredOk v.username = true) (h2 : requiredOk v.email = true)
    (h3 : requiredOk v.password = true) (h4 : requiredOk v.name = true)
    (h5 : conditionalRequiredOk v.addressLine1 v.plan = true)
    (h6 : requiredOk v.addressLine2 = true) (h7 : requiredOk v.city = true)
    (h8 : requiredOk v.postcode = true) (h9 : requiredOk v.country = true)
    (h10 : v.tos = true) :
    (svc.isUsernameTaken v.username = true →
      usernameValidity svc v.username true = .invalid .taken) ∧
    (svc.isEmailTaken v.email = true →
      emailValidity svc v.email true = .invalid .taken) ∧
    ((svc.getPasswordStrength v.password).score < 3 →
      passwordValidity svc v.password true = .invalid .weakPassword) ∧
    ((svc.isUsernameTaken v.username = true ∨ svc.isEmailTaken v.email = true ∨
        (svc.getPasswordStrength v.password).score < 3) →
      canSubmit svc (elapseDebounce (fillForm v)).1 = false ∧
      (runScenario svc v).2 =
        [RemoteCall.usernameTaken v.username, RemoteCall.emailTaken v.email,
         RemoteCall.passwordStrength v.password]) := by
  refine ⟨?_, ?_, ?_, ?_⟩
  · intro h
    simp [usernameValidity, h1, h]
  · intro h
    simp [emailValidity, h2, h]
  · intro h
    simp [passwordValidity, h3, h]
  · intro hd
    have hcs : canSubmit svc
        ({ values := v, debounceElapsed := true, phase := Phase.idle,
           status := none } : FormState) = false := by
      rcases hd with h | h | h
      · simp [canSubmit, fieldValidities, usernameValidity, isValidB, h1, h]
      · simp [canSubmit, fieldValidities, emailValidity, isValidB, h2, h]
      · simp [canSubmit, fieldValidities, passwordValidity, isValidB, h3, h]
    refine ⟨by rw [elapseDebounce_fillForm_state]; exact hcs, ?_⟩
    rw [runScenario, elapseDebounce_fillForm_state,
      elapseDebounce_fillForm_calls v h1 h2 h3]
    simp [submitForm, hcs]

/-- Witness for C5: the sample values against a collaborator reporting
the username as taken leave the form non-submittable with no signup
call. -/
theorem async_rejection_blocks_submission_witness :
    usernameValidity
        { happyService with isUsernameTaken := fun _ => true }
        sampleValues.username true = .invalid .taken ∧
    canSubmit { happyService with isUsernameTaken := fun _ => true }
      (elapseDebounce (fillForm sampleValues)).1 = false ∧
    (runScenario { happyService with isUsernameTaken := fun _ => true }
        sampleValues).2 =
      [RemoteCall.usernameTaken sampleValues.username,
       RemoteCall.emailTaken sampleValues.email,
       RemoteCall.passwordStrength sampleValues.password] := by
  have h := async_rejection_blocks_submission
    { happyService with isUsernameTaken := fun _ => true } sampleValues
    (by decide) (by decide) (by decide) (by decide) (by decide) (by decide)
    (by decide) (by decide) (by decide) (by decide)
  exact ⟨h.1 (by decide), (h.2.2.2 (Or.inl (by decide))).1,
    (h.2.2.2 (Or.inl (by decide))).2⟩

/-- C7: when every async check passes but the final signup call fails,
the submission phase becomes `failed` and the status text becomes
"Sign-up error"; the failure is surfaced only at form level: the field
values are unchanged and every per-field validity is the same as
before triggering submit. -/
theorem signup_failure_is_form_level (svc : SignupService) (v : FormValues)
    (h1 : requiredOk v.username = true) (h2 : requiredOk v.email = true)
    (h3 : requiredOk v.password = true) (h4 : requiredOk v.name = true)
    (h5 : conditionalRequiredOk v.addressLine1 v.plan = true)
    (h6 : requiredOk v.addressLine2 = true) (h7 : requiredOk v.city = true)
    (h8 : requiredOk v.postcode = true) (h9 : requiredOk v.country = true)
    (h10 : v.tos = true)
    (hu : svc.isUsernameTaken v.username = false)
    (he : svc.isEmailTaken v.email = false)
    (hp : 3 ≤ (svc.getPasswordStrength v.password).score)
    (hs : svc.signupSucceeds (projectPayload v) = false) :
    (runScenario svc v).1.status = some "Sign-up error" ∧
    (runScenario svc v).1.phase = Phase.failed ∧
    (runScenario svc v).1.values = v ∧
    fieldValidities svc (runScenario svc v).1 =
      fieldValidities svc (elapseDebounce (fillForm v)).1 ∧
    (runScenario svc v).2 =
      [RemoteCall.usernameTaken v.username, RemoteCall.emailTaken v.email,
       RemoteCall.passwordStrength v.password,
       RemoteCall.signup (projectPayload v)] := by
  have hcs := canSubmit_of_all_checks_pass svc v
    h1 h2 h3 h4 h5 h6 h7 h8 h9 h10 hu he hp
  have hrun : runScenario svc v =
      (({ values := v, debounceElapsed := true, phase := Phase.failed,
          status := some "Sign-up error" } : FormState),
        [RemoteCall.usernameTaken v.username, RemoteCall.emailTaken v.email,
         RemoteCall.passwordStrength v.password,
         RemoteCall.signup (projectPayload v)]) := by
    rw [runScenario, elapseDebounce_fillForm_state,
      elapseDebounce_fillForm_calls v h1 h2 h3]
    simp [submitForm, hcs, hs]
  rw [hrun, elapseDebounce_fillForm_state]
  exact ⟨rfl, rfl, rfl, rfl, rfl⟩

/-- Witness for C7: the sample values against a collaborator whose
signup call fails yield the form-level error status with field state
untouched. -/
theorem signup_failure_is_form_level_witness :
    (runScenario { happyService with signupSucceeds := fun _ => false }
        sampleValues).1.status = some "Sign-up error" ∧
    (runScenario { happyService with signupSucceeds := fun _ => false }
        sampleValues).1.phase = Phase.failed ∧
    (runScenario { happyService with signupSucceeds := fun _ => false }
        sampleValues).1.values = sampleValues :=
  have h := signup_failure_is_form_level
    { happyService with signupSucceeds := fun _ => false } sampleValues
    (by decide) (by decide) (by decide) (by decide) (by decide) (by decide)
    (by decide) (by decide) (by decide) (by decide) (by decide) (by decide)
    (by decide) (by decide)
  ⟨h.1, h.2.1, h.2.2.1⟩

/-- C6: with the personal plan, `addressLine1` is valid regardless of
its value and carries no `aria-required` attribute; switching the plan
of a snapshot whose `addressLine1` is empty to business or non-profit
makes the field required (`aria-required` set to "true") and invalid
with kind `required`, with the debounce flag untouched (the
re-evaluation is synchronous, no debounce window is awaited). -/
theorem addressLine1_required_iff_plan_not_personal
    (value : String) (st : FormState) (p : Plan)
    (hp : p ≠ Plan.personal)
    (hempty : requiredOk st.values.addressLine1 = false) :
    (addressLine1Validity value Plan.personal = .valid ∧
      addressLine1AriaRequired Plan.personal = none) ∧
    (addressLine1Validity (setPlan st p).values.addressLine1
        (setPlan st p).values.plan = .invalid .required ∧
      addressLine1AriaRequired (setPlan st p).values.plan = some "true" ∧
      (setPlan st p).debounceElapsed = st.debounceElapsed) := by
  refine ⟨⟨by simp [addressLine1Validity, conditionalRequiredOk], rfl⟩, ?_, ?_, rfl⟩
  · cases p with
    | personal => exact absurd rfl hp
    | business => simp [setPlan, addressLine1Validity, conditionalRequiredOk, hempty]
    | nonProfit => simp [setPlan, addressLine1Validity, conditionalRequiredOk, hempty]
  · cases p with
    | personal => exact absurd rfl hp
    | business => rfl
    | nonProfit => rfl

/-- Witness for C6: switching the empty initial form to the business
plan makes `addressLine1` required and invalid at once. -/
theorem addressLine1_required_iff_plan_not_personal_witness :
    addressLine1Validity
        (setPlan (fillForm emptyValues) Plan.business).values.addressLine1
        (setPlan (fillForm emptyValues) Plan.business).values.plan =
      .invalid .required ∧
    addressLine1AriaRequired
        (setPlan (fillForm emptyValues) Plan.business).values.plan = some "true" :=
  have h := addressLine1_required_iff_plan_not_personal "anything"
    (fillForm emptyValues) Plan.business (by decide) (by decide)
  ⟨h.2.1, h.2.2.1⟩

/-- C8: every required field of the form, once touched while still
empty, renders `aria-required` set to "true" and an error region
associated through `aria-errormessage` under the field id followed by
"-errors", whose text is the template of the field's error kind:
"Please accept the Terms and Services" for `tos` and "must be given"
for the others. -/
theorem required_fields_touched_expose_error_region (f : String)
    (hf : f ∈ requiredFields) :
    (renderRequiredField f true).ariaRequired = some "true" ∧
    (renderRequiredField f true).ariaErrormessage = some (f ++ "-errors") ∧
    (renderRequiredField f true).errorRegionText =
      (if f = "tos" then "Please accept the Terms and Services"
       else "must be given") := by
  fin_cases hf <;> refine ⟨rfl, by decide, by decide⟩

/-- Witness for C8: the touched empty username field renders the
required marking, the association to "username-errors" and the
`required` message template. -/
theorem required_fields_touched_expose_error_region_witness :
    (renderRequiredField "username" true).ariaRequired = some "true" ∧
    (renderRequiredField "username" true).ariaErrormessage =
      some ("username" ++ "-errors") ∧
    (renderRequiredField "username" true).errorRegionText =
      (if "username" = "tos" then "Please accept the Terms and Services"
       else "must be given") :=
  required_fields_touched_expose_error_region "username" (by decide)

/-- C9: toggling the password-visibility control twice returns the
rendering `type` attribute of the password field to its original
state; from the initial hidden state one toggle yields "text" and a
second toggle yields "password" again. -/
theorem password_display_toggle_round_trip (showPassword : Bool) :
    passwordTypeAttr (togglePasswordDisplay (togglePasswordDisplay showPassword)) =
      passwordTypeAttr showPassword ∧
    passwordTypeAttr false = "password" ∧
    passwordTypeAttr (togglePasswordDisplay false) = "text" ∧
    passwordTypeAttr (togglePasswordDisplay (togglePasswordDisplay false)) =
      "password" := by
  cases showPassword <;> exact ⟨rfl, rfl, rfl, rfl⟩
